import Mathlib

/-!
A persistent key-value store over an SQL storage engine (`main.c`).

Shallow embedding of `db_init`, `db_close`, `db_set`, `db_get`, `db_print` and
`main`.  The C functions are translated statement by statement.  The storage
engine they call (`sqlite3_*`) is an external library; it is modelled here as
a small state machine over an explicit `World`: the `kv` tables held by the
backing files, the connection objects, a script of environment failures, a log
of engine calls, and the two output streams.

A result of `none` means that the C program has no defined behaviour on that
input (an engine call on a released or never allocated connection object).
The loop of `db_print` is bounded by the number of rows plus one; the bound is
never reached (`db_print_total`).
-/

namespace KVStore

/-! ## Data model -/

/-- A row of table `kv`: `(key, value)`. -/
abbrev Record := String × String

/-- Table `kv`, rows in scan order. -/
abbrev Table := List Record

/-- Engine result codes.  The source compares against `SQLITE_OK`, `SQLITE_ROW`
and `SQLITE_DONE` only; every other code is an error code. -/
inductive Rc where
  | ok
  | row
  | done
  | error (code : Nat)
  deriving DecidableEq, Repr

abbrev SQLITE_OK : Rc := Rc.ok
abbrev SQLITE_ROW : Rc := Rc.row
abbrev SQLITE_DONE : Rc := Rc.done
/-- Result code for a call on an unusable connection handle. -/
abbrev SQLITE_MISUSE : Rc := Rc.error 21
/-- Generic SQL error, for instance a statement naming a missing table. -/
abbrev SQLITE_ERROR : Rc := Rc.error 1

/-- The four SQL texts of the source:
`create`  is `CREATE TABLE IF NOT EXISTS kv (key TEXT PRIMARY KEY, value TEXT);`
`insert`  is `INSERT INTO kv (key, value) VALUES (?, ?) ON CONFLICT(key) DO UPDATE SET value=excluded.value;`
`selectValue` is `SELECT value FROM kv WHERE key=?;`
`selectAll`   is `SELECT key, value FROM kv;` -/
inductive Sql where
  | create
  | insert
  | selectValue
  | selectAll
  deriving DecidableEq, Repr

/-- State of a connection object (`sqlite3`). -/
inductive ConnState where
  | live (path : String)
  | failed
  | released
  deriving DecidableEq, Repr

/-- A `sqlite3*`: `none` is the NULL pointer, `some i` the address of the
`i`-th connection object ever allocated. -/
abbrev Ptr := Option Nat

/-- An environment failure of one engine call: its error code and message. -/
structure Fault where
  code : Nat
  msg : String
  deriving DecidableEq, Repr

/-- Engine calls, as recorded in the log. -/
inductive Call where
  | open (path : String)
  | exec (sql : Sql)
  | prepare (sql : Sql)
  | step (sql : Sql)
  | finalize (sql : Sql)
  | close
  deriving DecidableEq, Repr

/-- Everything outside the C variables.
`files` maps a path to the `kv` table of the database file there (no entry: no
file, or a file without table `kv`); `conns` are the connection objects ever
allocated; `faults` scripts the environment: each of the fallible engine calls
(open, exec, prepare, step) consumes the head, `some f` makes that call fail
with `f`, and an exhausted script means no further failure. -/
structure World where
  files : List (String × Table)
  conns : List ConnState
  faults : List (Option Fault)
  log : List Call
  errmsg : String
  stdout : List String
  stderr : List String
  deriving DecidableEq, Repr

/-- The C struct `db`. -/
structure db where
  conn : Ptr
  deriving DecidableEq, Repr

/-- A prepared statement (`sqlite3_stmt`): its connection, its SQL text, the
two bound parameters, the scan position and the columns of the current row. -/
structure sqlite3_stmt where
  conn : Nat
  sql : Sql
  p1 : Option String
  p2 : Option String
  cursor : Nat
  cols : List String
  deriving DecidableEq, Repr

/-! ## Tables and files -/

/-- The `kv` table stored at `path`, if any. -/
def readFile (path : String) : List (String × Table) → Option Table
  | [] => none
  | (p, t) :: rest => if p = path then some t else readFile path rest

/-- Store table `t` at `path`, replacing the one there. -/
def writeFile (path : String) (t : Table) : List (String × Table) → List (String × Table)
  | [] => [(path, t)]
  | (p, t0) :: rest => if p = path then (p, t) :: rest else (p, t0) :: writeFile path t rest

/-- Modelled from the spec: the engine executing `SELECT value FROM kv WHERE key=?`
(the engine is a library outside the repository); the value of the row whose
key is `k`. -/
def selectValue (k : String) : Table → Option String
  | [] => none
  | (k0, v0) :: rest => if k0 = k then some v0 else selectValue k rest

/-- Modelled from the spec: the engine executing the upsert
`INSERT ... ON CONFLICT(key) DO UPDATE SET value=excluded.value` (the engine is
a library outside the repository): on primary-key collision the value of the
existing row is overwritten in place, otherwise a new row is appended. -/
def upsert (k v : String) : Table → Table
  | [] => [(k, v)]
  | (k0, v0) :: rest => if k0 = k then (k0, v) :: rest else (k0, v0) :: upsert k v rest

/-! ## The storage engine -/

/-- The scripted outcome of the next fallible engine call. -/
def nextFault (w : World) : Option Fault :=
  w.faults.headD none

/-- Record engine call `c` and consume its entry of the failure script. -/
def advance (c : Call) (w : World) : World :=
  { w with faults := w.faults.tail, log := w.log ++ [c] }

/-- Append a call to the log. -/
def logCall (c : Call) (w : World) : World :=
  { w with log := w.log ++ [c] }

/-- State of the connection object behind a non-NULL pointer. -/
def connState (i : Nat) (w : World) : Option ConnState :=
  w.conns[i]?

/-- Modelled from the spec: `sqlite3_open` of the engine library ("opens or
creates the backing file at path").  A connection object is allocated in both
outcomes; after a failure it is unusable. -/
def sqlite3_open (filename : String) (w : World) : Rc × Ptr × World :=
  let w1 := advance (Call.open filename) w
  match nextFault w with
  | some f =>
      (Rc.error f.code, some w1.conns.length,
        { w1 with conns := w1.conns ++ [ConnState.failed], errmsg := f.msg })
  | none =>
      (SQLITE_OK, some w1.conns.length,
        { w1 with conns := w1.conns ++ [ConnState.live filename] })

/-- Modelled from the spec: `sqlite3_close` of the engine library ("releases the
connection").  Closing NULL is a harmless no-op; closing an object that was
already released, or was never allocated, has no defined behaviour. -/
def sqlite3_close (p : Ptr) (w : World) : Option (Rc × World) :=
  match p with
  | none => some (SQLITE_OK, logCall Call.close w)
  | some i =>
    match connState i w with
    | some (ConnState.live _) | some ConnState.failed =>
        some (SQLITE_OK, { logCall Call.close w with conns := w.conns.set i ConnState.released })
    | _ => none

/-- Modelled from the spec: the effect of one run of a statement on the table
of its file, with the result code of the run.  A statement with an unbound
(NULL) key or value is outside the data model and reported as an error. -/
def runWrite (sql : Sql) (p1 p2 : Option String) (t : Option Table) : Rc × Option Table :=
  match sql, t with
  | Sql.create, none => (SQLITE_DONE, some [])
  | Sql.create, some t => (SQLITE_DONE, some t)
  | Sql.insert, some t =>
    match p1, p2 with
    | some k, some v => (SQLITE_DONE, some (upsert k v t))
    | _, _ => (Rc.error 19, some t)
  | _, t => (SQLITE_ERROR, t)

/-- Write back the table of a file. -/
def storeTable (path : String) (t : Option Table) (fs : List (String × Table)) :
    List (String × Table) :=
  match t with
  | none => fs
  | some t => writeFile path t fs

/-- Modelled from the spec: `sqlite3_exec` of the engine library, used by the
source for the `CREATE TABLE IF NOT EXISTS` statement only.  Returns the result
code and the error message (`errmsg` out-parameter). -/
def sqlite3_exec (p : Ptr) (sql : Sql) (w : World) : Option (Rc × Option String × World) :=
  let w1 := advance (Call.exec sql) w
  match p with
  | none => some (SQLITE_MISUSE, none, w1)
  | some i =>
    match connState i w1 with
    | some (ConnState.live path) =>
      match nextFault w with
      | some f => some (Rc.error f.code, some f.msg, { w1 with errmsg := f.msg })
      | none =>
        match runWrite sql none none (readFile path w1.files) with
        | (Rc.done, t) => some (SQLITE_OK, none, { w1 with files := storeTable path t w1.files })
        | (rc, _) => some (rc, some "SQL logic error", { w1 with errmsg := "SQL logic error" })
    | some ConnState.failed => some (SQLITE_MISUSE, none, w1)
    | _ => none

/-- Modelled from the spec: `sqlite3_prepare_v2` of the engine library.  Fails
with `SQLITE_MISUSE` on a NULL or unusable handle, with the scripted failure if
there is one, and with `SQLITE_ERROR` when the statement names table `kv` and
the file has none. -/
def sqlite3_prepare_v2 (p : Ptr) (sql : Sql) (w : World) :
    Option (Rc × Option sqlite3_stmt × World) :=
  let w1 := advance (Call.prepare sql) w
  match p with
  | none => some (SQLITE_MISUSE, none, { w1 with errmsg := "bad parameter or other API misuse" })
  | some i =>
    match connState i w1 with
    | some (ConnState.live path) =>
      match nextFault w with
      | some f => some (Rc.error f.code, none, { w1 with errmsg := f.msg })
      | none =>
        if sql ≠ Sql.create ∧ readFile path w1.files = none then
          some (SQLITE_ERROR, none, { w1 with errmsg := "no such table: kv" })
        else
          some (SQLITE_OK,
            some { conn := i, sql := sql, p1 := none, p2 := none, cursor := 0, cols := [] }, w1)
    | some ConnState.failed =>
        some (SQLITE_MISUSE, none, { w1 with errmsg := "bad parameter or other API misuse" })
    | _ => none

/-- Modelled from the spec: `sqlite3_bind_text` of the engine library; binds
parameter `idx` (1-based). -/
def sqlite3_bind_text (stmt : sqlite3_stmt) (idx : Nat) (s : String) : Rc × sqlite3_stmt :=
  if idx = 1 then (SQLITE_OK, { stmt with p1 := some s })
  else if idx = 2 then (SQLITE_OK, { stmt with p2 := some s })
  else (Rc.error 25, stmt)

/-- Modelled from the spec: `sqlite3_step` of the engine library.  A write
statement runs atomically: it either finishes with `SQLITE_DONE` and its effect,
or fails and leaves the table unchanged.  A query yields `SQLITE_ROW` once per
remaining row, then `SQLITE_DONE`. -/
def sqlite3_step (stmt : sqlite3_stmt) (w : World) : Option (Rc × sqlite3_stmt × World) :=
  let w1 := advance (Call.step stmt.sql) w
  match connState stmt.conn w1 with
  | some (ConnState.live path) =>
    match nextFault w with
    | some f => some (Rc.error f.code, stmt, { w1 with errmsg := f.msg })
    | none =>
      match stmt.sql with
      | Sql.selectValue =>
        match stmt.cursor, stmt.p1.bind (fun k => (readFile path w1.files).bind (selectValue k)) with
        | 0, some v => some (SQLITE_ROW, { stmt with cursor := 1, cols := [v] }, w1)
        | _, _ => some (SQLITE_DONE, { stmt with cursor := stmt.cursor + 1, cols := [] }, w1)
      | Sql.selectAll =>
        match ((readFile path w1.files).getD [])[stmt.cursor]? with
        | some (k, v) =>
            some (SQLITE_ROW, { stmt with cursor := stmt.cursor + 1, cols := [k, v] }, w1)
        | none => some (SQLITE_DONE, { stmt with cols := [] }, w1)
      | sql =>
        match runWrite sql stmt.p1 stmt.p2 (readFile path w1.files) with
        | (rc, t) => some (rc, stmt, { w1 with files := storeTable path t w1.files })
  | _ => none

/-- Modelled from the spec: `sqlite3_column_text` of the engine library; column
`i` of the current row, NULL when there is none. -/
def sqlite3_column_text (stmt : sqlite3_stmt) (i : Nat) : Option String :=
  stmt.cols[i]?

/-- Modelled from the spec: `sqlite3_finalize` of the engine library. -/
def sqlite3_finalize (stmt : sqlite3_stmt) (w : World) : World :=
  logCall (Call.finalize stmt.sql) w

/-- Modelled from the spec: `sqlite3_errmsg` of the engine library; the text
of the most recent failure, a fixed text for a NULL handle. -/
def sqlite3_errmsg (p : Ptr) (w : World) : String :=
  match p with
  | none => "out of memory"
  | some _ => w.errmsg

/-! ## C library -/

/-- The call `fprintf(stderr, ...)` with the formatted text. -/
def fprintf_stderr (s : String) (w : World) : World :=
  { w with stderr := w.stderr ++ [s] }

/-- The call `printf(...)` with the formatted text. -/
def printf (s : String) (w : World) : World :=
  { w with stdout := w.stdout ++ [s] }

/-- The `%s` conversion of a possibly NULL string. -/
def fmtS (s : Option String) : String :=
  s.getD "(null)"

/-- The C library `strdup`; the copy of a NULL pointer is not defined.
Allocation is assumed to succeed. -/
def strdup (s : Option String) : Option String :=
  s

/-! ## The program -/

/-- Function `db_init` (main.c 14-33). -/
def db_init (_d : db) (filename : String) (w : World) : Option (Int × db × World) :=
  match sqlite3_open filename w with
  | (rc, conn, w) =>
    let d : db := { conn := conn }
    if rc ≠ SQLITE_OK then
      some (0, d, fprintf_stderr ("Cannot open database: " ++ sqlite3_errmsg d.conn w ++ "\n") w)
    else
      match sqlite3_exec d.conn Sql.create w with
      | none => none
      | some (rc, errmsg, w) =>
        if rc ≠ SQLITE_OK then
          some (0, d, fprintf_stderr ("SQL error: " ++ fmtS errmsg ++ "\n") w)
        else
          some (1, d, w)

/-- Function `db_close` (main.c 36-38).  The handle is returned as the C code leaves it. -/
def db_close (d : db) (w : World) : Option (db × World) :=
  match sqlite3_close d.conn w with
  | none => none
  | some (_, w) => some (d, w)

/-- Function `db_set` (main.c 41-63). -/
def db_set (d : db) (key value : String) (w : World) : Option (Int × World) :=
  match sqlite3_prepare_v2 d.conn Sql.insert w with
  | none => none
  | some (rc, stmt, w) =>
    if rc ≠ SQLITE_OK then
      some (0, fprintf_stderr ("Failed to prepare statement: " ++ sqlite3_errmsg d.conn w ++ "\n") w)
    else
      match stmt with
      | none => none
      | some stmt =>
        let stmt := (sqlite3_bind_text stmt 1 key).2
        let stmt := (sqlite3_bind_text stmt 2 value).2
        match sqlite3_step stmt w with
        | none => none
        | some (rc, stmt, w) =>
          if rc ≠ SQLITE_DONE then
            some (0, sqlite3_finalize stmt
              (fprintf_stderr ("Failed to execute statement: " ++ sqlite3_errmsg d.conn w ++ "\n") w))
          else
            some (1, sqlite3_finalize stmt w)

/-- Function `db_get` (main.c 66-84).  The result is the returned `char*`, `none` being
NULL. -/
def db_get (d : db) (key : String) (w : World) : Option (Option String × World) :=
  match sqlite3_prepare_v2 d.conn Sql.selectValue w with
  | none => none
  | some (rc, stmt, w) =>
    if rc ≠ SQLITE_OK then
      some (none, fprintf_stderr ("Failed to prepare statement: " ++ sqlite3_errmsg d.conn w ++ "\n") w)
    else
      match stmt with
      | none => none
      | some stmt =>
        let stmt := (sqlite3_bind_text stmt 1 key).2
        match sqlite3_step stmt w with
        | none => none
        | some (rc, stmt, w) =>
          if rc = SQLITE_ROW then
            match strdup (sqlite3_column_text stmt 0) with
            | none => none
            | some result => some (some result, sqlite3_finalize stmt w)
          else
            some (none, sqlite3_finalize stmt w)

/-- The `while` loop of `db_print` (main.c 95-99), bounded by `fuel`
iterations; `none` also when the bound is reached. -/
def db_print_loop : Nat → sqlite3_stmt → World → Option (sqlite3_stmt × World)
  | 0, _, _ => none
  | fuel + 1, stmt, w =>
    match sqlite3_step stmt w with
    | none => none
    | some (rc, stmt, w) =>
      if rc = SQLITE_ROW then
        let key := sqlite3_column_text stmt 0
        let value := sqlite3_column_text stmt 1
        db_print_loop fuel stmt (printf (fmtS key ++ " : " ++ fmtS value ++ "\n") w)
      else
        some (stmt, w)

/-- Number of rows of the table a statement scans. -/
def scanLength (stmt : sqlite3_stmt) (w : World) : Nat :=
  match connState stmt.conn w with
  | some (ConnState.live path) => ((readFile path w.files).getD []).length
  | _ => 0

/-- Function `db_print` (main.c 87-102).  The loop bound is one more than the number
of rows of the table, which the loop never reaches. -/
def db_print (d : db) (w : World) : Option World :=
  match sqlite3_prepare_v2 d.conn Sql.selectAll w with
  | none => none
  | some (rc, stmt, w) =>
    if rc ≠ SQLITE_OK then
      some (fprintf_stderr ("Failed to prepare statement: " ++ sqlite3_errmsg d.conn w ++ "\n") w)
    else
      match stmt with
      | none => none
      | some stmt =>
        match db_print_loop (scanLength stmt w + 1) stmt w with
        | none => none
        | some (stmt, w) => some (sqlite3_finalize stmt w)

/-- Function `main` (main.c 104-128); `data` is the uninitialised local. -/
def main (data : db) (w : World) : Option (Int × World) :=
  match db_init data "mydb.sqlite" w with
  | none => none
  | some (r, data, w) =>
    if r = 0 then some (1, w)
    else
      match db_set data "temperature" "23.4" w with
      | none => none
      | some (_, w) =>
      match db_set data "status" "OK" w with
      | none => none
      | some (_, w) =>
      match db_set data "temperature" "24.1" w with
      | none => none
      | some (_, w) =>
      match db_get data "temperature" w with
      | none => none
      | some (temp, w) =>
        let w := match temp with
          | some temp => printf ("Temperature: " ++ temp ++ "\n") w
          | none => printf "Temperature key not found\n" w
        let w := printf "All key-value pairs:\n" w
        match db_print data w with
        | none => none
        | some w =>
          match db_close data w with
          | none => none
          | some (_, w) => some (0, w)

/-- A world with no files, no connections and no scripted failure. -/
def World.empty : World :=
  { files := [], conns := [], faults := [], log := [], errmsg := "", stdout := [], stderr := [] }

/-! ## Vocabulary of the statements -/

/-- The path of the backing file when the handle holds a live connection. -/
def openAt (d : db) (w : World) : Option String :=
  match d.conn with
  | none => none
  | some i =>
    match connState i w with
    | some (ConnState.live path) => some path
    | _ => none

/-- The table `kv` behind an open handle. -/
def tableOf (d : db) (w : World) : Option Table :=
  (openAt d w).bind (fun path => readFile path w.files)

/-- The pointer is NULL or addresses a connection object that is not released. -/
def handleOk (p : Ptr) (w : World) : Bool :=
  match p with
  | none => true
  | some i =>
    match connState i w with
    | some (ConnState.live _) => true
    | some ConnState.failed => true
    | _ => false

/-- The next `n` fallible engine calls meet no environment failure. -/
def calm : Nat → List (Option Fault) → Bool
  | 0, _ => true
  | _ + 1, [] => true
  | n + 1, f :: fs => f.isNone && calm n fs

/-- A sequence of `db_set` calls, each of which returns 1. -/
def setAll (d : db) : List (String × String) → World → Option World
  | [], w => some w
  | (k, v) :: rest, w =>
    match db_set d k v w with
    | some (r, w1) => if r = 1 then setAll d rest w1 else none
    | none => none

/-- The value of the most recent pair with key `k` in a sequence of calls. -/
def lastSet (k : String) (kvs : List (String × String)) : Option String :=
  selectValue k kvs.reverse

/-- The line `db_print` prints for a row. -/
def fmtRow (r : Record) : String :=
  r.1 ++ " : " ++ r.2 ++ "\n"

/-- The world left by a defined outcome (the empty world otherwise). -/
def worldOf {α : Type} (r : Option (α × World)) : World :=
  match r with
  | some (_, w) => w
  | none => World.empty

/-- A world with one live connection (object 0) to `path`, whose file holds
table `t`, and the failure script `fs`. -/
def World.opened (path : String) (t : Table) (fs : List (Option Fault)) : World :=
  { World.empty with files := [(path, t)], conns := [ConnState.live path], faults := fs }

/-- The table after a sequence of upserts. -/
def applySets (kvs : List (String × String)) (t : Table) : Table :=
  kvs.foldl (fun t kv => upsert kv.1 kv.2 t) t

/-- The rows a scan returns before it ends: all of them, or those before the
first scripted failure of a step. -/
def scanned : List Record → List (Option Fault) → List Record
  | [], _ => []
  | r :: rs, [] => r :: rs
  | r :: rs, none :: fs => r :: scanned rs fs
  | _ :: _, some _ :: _ => []

/-- Demonstration run: the world after `db_init` on `"f"` from the empty world;
the handle is then `⟨some 0⟩`. -/
def demoInit : World :=
  worldOf ((db_init ⟨none⟩ "f" World.empty).map Prod.snd)

/-- Demonstration run, continued with `db_set "k" "v"`. -/
def demoSet : World :=
  worldOf (db_set ⟨some 0⟩ "k" "v" demoInit)

/-- Demonstration run, continued with `db_close`. -/
def demoClosed : World :=
  worldOf (db_close ⟨some 0⟩ demoSet)

/-- Demonstration run, continued with a second `db_init` on `"f"`; the new
handle is `⟨some 1⟩`. -/
def demoReopened : World :=
  worldOf ((db_init ⟨some 0⟩ "f" demoClosed).map Prod.snd)

/-- Demonstration input: an open store with rows `a`, `b`, whose scan fails at
the second step (the prepare and the first step succeed). -/
def demoScanFails : World :=
  World.opened "f" [("a", "1"), ("b", "2")] [none, none, some ⟨10, "disk I/O error"⟩]

/-- The world after a successful `sqlite3_open` of `path`. -/
def afterOpen (path : String) (w : World) : World :=
  { advance (Call.open path) w with
    conns := (advance (Call.open path) w).conns ++ [ConnState.live path] }

/-- The world after a `sqlite3_open` of `path` that failed with `f`. -/
def afterOpenFailed (path : String) (f : Fault) (w : World) : World :=
  { advance (Call.open path) w with
    conns := (advance (Call.open path) w).conns ++ [ConnState.failed], errmsg := f.msg }

/-- The world after a successful `CREATE TABLE IF NOT EXISTS` on the file at
`path`. -/
def afterCreate (path : String) (w : World) : World :=
  { advance (Call.exec Sql.create) w with
    files := writeFile path ((readFile path w.files).getD []) w.files }

/-- The handle was never opened with success: its pointer is NULL, or addresses
the connection object left by an open that failed. -/
def neverOpened (d : db) (w : World) : Bool :=
  match d.conn with
  | none => true
  | some i =>
    match connState i w with
    | some ConnState.failed => true
    | _ => false

/-- The world after a prepare of `sql` refused for misuse of the handle `p`,
with the diagnostic line the caller prints. -/
def afterMisuse (p : Ptr) (sql : Sql) (w : World) : World :=
  fprintf_stderr ("Failed to prepare statement: " ++
      sqlite3_errmsg p
        { advance (Call.prepare sql) w with errmsg := "bad parameter or other API misuse" } ++ "\n")
    { advance (Call.prepare sql) w with errmsg := "bad parameter or other API misuse" }

/-- The keys of a table. -/
def keys (t : Table) : List String :=
  t.map Prod.fst

/-! ## Tables -/

theorem readFile_writeFile (path : String) (t : Table) (fs : List (String × Table)) :
    readFile path (writeFile path t fs) = some t := by
  induction fs with
  | nil => simp [writeFile, readFile]
  | cons hd tl ih =>
    obtain ⟨p, t0⟩ := hd
    by_cases h : p = path
    · simp [writeFile, readFile, h]
    · simp [writeFile, readFile, h, ih]

theorem readFile_writeFile_ne (path q : String) (t : Table) (fs : List (String × Table))
    (h : q ≠ path) : readFile q (writeFile path t fs) = readFile q fs := by
  induction fs with
  | nil =>
    have h2 : path ≠ q := fun e => h e.symm
    simp [writeFile, readFile, h2]
  | cons hd tl ih =>
    obtain ⟨p, t0⟩ := hd
    by_cases hp : p = path
    · subst hp
      have h2 : p ≠ q := fun e => h e.symm
      simp [writeFile, readFile, h2]
    · by_cases hq : p = q
      · subst hq
        simp [writeFile, readFile, h]
      · simp [writeFile, readFile, hp, hq, ih]

theorem selectValue_upsert (k v : String) (t : Table) :
    selectValue k (upsert k v t) = some v := by
  induction t with
  | nil => simp [upsert, selectValue]
  | cons hd tl ih =>
    obtain ⟨k0, v0⟩ := hd
    by_cases h : k0 = k
    · simp [upsert, selectValue, h]
    · simp [upsert, selectValue, h, ih]

theorem selectValue_upsert_ne (k q v : String) (t : Table) (h : q ≠ k) :
    selectValue q (upsert k v t) = selectValue q t := by
  induction t with
  | nil =>
    have h2 : k ≠ q := fun e => h e.symm
    simp [upsert, selectValue, h2]
  | cons hd tl ih =>
    obtain ⟨k0, v0⟩ := hd
    by_cases hk : k0 = k
    · subst hk
      have h2 : k0 ≠ q := fun e => h e.symm
      simp [upsert, selectValue, h2]
    · by_cases hq : k0 = q
      · subst hq
        simp [upsert, selectValue, h]
      · simp [upsert, selectValue, hk, hq, ih]

theorem selectValue_eq_none (k : String) (t : Table) :
    selectValue k t = none ↔ k ∉ keys t := by
  induction t with
  | nil => simp [selectValue, keys]
  | cons hd tl ih =>
    obtain ⟨k0, v0⟩ := hd
    by_cases h : k0 = k
    · simp [selectValue, keys, h]
    · have h2 : k ≠ k0 := fun e => h e.symm
      simp only [keys] at ih
      simp [selectValue, keys, h, h2, ih]

theorem mem_keys_of_mem {k v : String} {t : Table} (h : (k, v) ∈ t) : k ∈ keys t := by
  simp only [keys, List.mem_map]
  exact ⟨(k, v), h, rfl⟩

theorem selectValue_mem {k v : String} {t : Table} (h : selectValue k t = some v) :
    (k, v) ∈ t := by
  induction t with
  | nil => simp [selectValue] at h
  | cons hd tl ih =>
    obtain ⟨k0, v0⟩ := hd
    by_cases hk : k0 = k
    · simp [selectValue, hk] at h
      simp [hk, h]
    · simp [selectValue, hk] at h
      exact List.mem_cons_of_mem _ (ih h)

theorem selectValue_of_mem {k v : String} {t : Table} (hn : (keys t).Nodup)
    (h : (k, v) ∈ t) : selectValue k t = some v := by
  induction t with
  | nil => simp at h
  | cons hd tl ih =>
    obtain ⟨k0, v0⟩ := hd
    simp only [keys, List.map_cons, List.nodup_cons] at hn
    rcases List.mem_cons.mp h with h1 | h1
    · simp only [Prod.mk.injEq] at h1
      simp [selectValue, h1.1, h1.2]
    · have hk : k ∈ keys tl := mem_keys_of_mem h1
      have hne : k0 ≠ k := fun e => hn.1 (e ▸ hk)
      simp [selectValue, hne]
      exact ih hn.2 h1

theorem keys_upsert_mem (k v : String) (t : Table) (h : k ∈ keys t) :
    keys (upsert k v t) = keys t := by
  induction t with
  | nil => simp [keys] at h
  | cons hd tl ih =>
    obtain ⟨k0, v0⟩ := hd
    by_cases hk : k0 = k
    · simp [upsert, keys, hk]
    · have h2 : k ∈ keys tl := by
        simp only [keys, List.map_cons, List.mem_cons] at h
        rcases h with h | h
        · exact absurd h.symm hk
        · exact h
      have := ih h2
      simp only [keys] at this
      simp [upsert, keys, hk, this]

theorem upsert_not_mem (k v : String) (t : Table) (h : k ∉ keys t) :
    upsert k v t = t ++ [(k, v)] := by
  induction t with
  | nil => simp [upsert]
  | cons hd tl ih =>
    obtain ⟨k0, v0⟩ := hd
    simp only [keys, List.map_cons, List.mem_cons, not_or] at h
    have hk : k0 ≠ k := fun e => h.1 e.symm
    have := ih h.2
    simp [upsert, hk, this]

theorem keys_upsert_nodup (k v : String) (t : Table) (h : (keys t).Nodup) :
    (keys (upsert k v t)).Nodup := by
  by_cases hk : k ∈ keys t
  · rw [keys_upsert_mem k v t hk]; exact h
  · rw [upsert_not_mem k v t hk]
    simp only [keys, List.map_append, List.map_cons, List.map_nil]
    simp only [keys] at h hk
    rw [List.nodup_append]
    refine ⟨h, by simp, ?_⟩
    intro a ha hb
    simp at hb
    exact hk (hb ▸ ha)

/-! ## The engine on a live connection -/

@[simp] theorem connState_advance (i : Nat) (c : Call) (w : World) :
    connState i (advance c w) = connState i w := rfl

@[simp] theorem advance_files (c : Call) (w : World) : (advance c w).files = w.files := rfl

@[simp] theorem advance_conns (c : Call) (w : World) : (advance c w).conns = w.conns := rfl

@[simp] theorem advance_faults (c : Call) (w : World) :
    (advance c w).faults = w.faults.tail := rfl

@[simp] theorem advance_stdout (c : Call) (w : World) : (advance c w).stdout = w.stdout := rfl

@[simp] theorem advance_stderr (c : Call) (w : World) : (advance c w).stderr = w.stderr := rfl

@[simp] theorem advance_log (c : Call) (w : World) : (advance c w).log = w.log ++ [c] := rfl

theorem calm_succ {n : Nat} {w : World} (h : calm (n + 1) w.faults = true) (c : Call) :
    nextFault w = none ∧ calm n (advance c w).faults = true := by
  unfold nextFault
  cases hf : w.faults with
  | nil => cases n <;> simp [calm, hf]
  | cons f fs =>
    rw [hf] at h
    simp only [calm, Bool.and_eq_true, Option.isNone_iff_eq_none] at h
    simp [h.1, h.2, hf]

theorem calm_of_nextFault {n : Nat} {w : World} (c : Call) (h1 : nextFault w = none)
    (h2 : calm n (advance c w).faults = true) : calm (n + 1) w.faults = true := by
  unfold nextFault at h1
  cases hf : w.faults with
  | nil => simp [calm]
  | cons f fs =>
    rw [hf] at h1
    simp only [advance_faults, hf, List.tail_cons] at h2
    simp only [List.headD_cons] at h1
    simp [calm, h1, h2]

theorem db_set_inv {d : db} {k v : String} {w w1 : World}
    (h : db_set d k v w = some (1, w1)) :
    ∃ i path t, d.conn = some i ∧ connState i w = some (ConnState.live path) ∧
      readFile path w.files = some t ∧ calm 2 w.faults = true ∧
      w1.files = writeFile path (upsert k v t) w.files ∧ w1.conns = w.conns ∧
      w1.stdout = w.stdout ∧ w1.stderr = w.stderr := by
  unfold db_set sqlite3_prepare_v2 at h
  cases hc : d.conn with
  | none => simp [hc] at h
  | some i =>
    simp only [hc, connState_advance] at h
    cases hs : connState i w with
    | none => simp [hs] at h
    | some st =>
      cases st with
      | failed => simp [hs] at h
      | released => simp [hs] at h
      | live path =>
        simp only [hs] at h
        cases hf : nextFault w with
        | some f => simp [hf] at h
        | none =>
          simp only [hf, advance_files] at h
          cases ht : readFile path w.files with
          | none => simp [ht] at h
          | some t =>
            simp [ht, sqlite3_bind_text, sqlite3_step, hs] at h
            cases hf2 : nextFault (advance (Call.prepare Sql.insert) w) with
            | some f => simp [hf2] at h
            | none =>
              simp [hf2, runWrite, storeTable, sqlite3_finalize, logCall] at h
              subst h
              exact ⟨i, path, t, rfl, hs, ht,
                calm_of_nextFault _ hf (calm_of_nextFault (Call.step Sql.insert) hf2 rfl),
                rfl, rfl, rfl, rfl⟩

theorem calm_two_iff (w : World) (c : Call) :
    calm 2 w.faults = true ↔ nextFault w = none ∧ nextFault (advance c w) = none := by
  constructor
  · intro h
    obtain ⟨h1, h2⟩ := calm_succ h c
    exact ⟨h1, (calm_succ h2 c).1⟩
  · intro h
    exact calm_of_nextFault c h.1 (calm_of_nextFault c h.2 rfl)

theorem db_get_live {d : db} {i : Nat} {path : String} (k : String) {w : World}
    (hc : d.conn = some i) (hs : connState i w = some (ConnState.live path)) :
    ∃ w1, db_get d k w =
        some (if calm 2 w.faults = true then (readFile path w.files).bind (selectValue k)
              else none, w1) ∧
      w1.files = w.files ∧ w1.conns = w.conns ∧ w1.stdout = w.stdout ∧
      (nextFault w = none → readFile path w.files ≠ none → w1.stderr = w.stderr) ∧
      (¬ (nextFault w = none ∧ readFile path w.files ≠ none) →
        w1.stderr = w.stderr ++ ["Failed to prepare statement: " ++ w1.errmsg ++ "\n"]) := by
  simp only [calm_two_iff w (Call.prepare Sql.selectValue)]
  unfold db_get sqlite3_prepare_v2
  simp only [hc, connState_advance, hs]
  cases hf : nextFault w with
  | some f => simp [fprintf_stderr, sqlite3_errmsg]
  | none =>
    cases ht : readFile path w.files with
    | none => simp [ht, fprintf_stderr, sqlite3_errmsg]
    | some t =>
      simp [ht, sqlite3_bind_text, sqlite3_step, hs]
      cases hf2 : nextFault (advance (Call.prepare Sql.selectValue) w) with
      | some f => simp [hf2, sqlite3_finalize, logCall]
      | none =>
        cases hv : selectValue k t with
        | none => simp [hf2, hv, sqlite3_finalize, logCall]
        | some v => simp [hf2, hv, sqlite3_finalize, logCall, strdup, sqlite3_column_text]

/-! ## The scan of `db_print` -/

theorem drop_nil_getElem? {t : Table} {c : Nat} (h : t.drop c = []) : t[c]? = none := by
  rw [List.drop_eq_nil_iff] at h
  exact List.getElem?_eq_none h

theorem drop_cons_getElem? {t : Table} {c : Nat} {r : Record} {rs : List Record}
    (h : t.drop c = r :: rs) : t[c]? = some r ∧ t.drop (c + 1) = rs := by
  induction t generalizing c with
  | nil => simp at h
  | cons hd tl ih =>
    cases c with
    | zero =>
      simp only [List.drop_zero, List.cons.injEq] at h
      simp [h.1, h.2]
    | succ c =>
      simp only [List.drop_succ_cons] at h
      simpa using ih h

theorem scanned_nil_faults (rows : List Record) : scanned rows [] = rows := by
  cases rows <;> rfl

theorem scanned_calm (rows : List Record) : ∀ (fs : List (Option Fault)),
    calm rows.length fs = true → scanned rows fs = rows := by
  induction rows with
  | nil => intro fs _; rfl
  | cons r rs ih =>
    intro fs h
    cases fs with
    | nil => rfl
    | cons f fs =>
      simp only [List.length_cons, calm, Bool.and_eq_true, Option.isNone_iff_eq_none] at h
      obtain ⟨hf, hr⟩ := h
      subst hf
      simp [scanned, ih fs hr]

theorem calm_mono {n m : Nat} (hnm : n ≤ m) : ∀ {fs : List (Option Fault)},
    calm m fs = true → calm n fs = true := by
  induction n generalizing m with
  | zero => intro fs _; rfl
  | succ n ih =>
    intro fs h
    cases m with
    | zero => omega
    | succ m =>
      cases fs with
      | nil => rfl
      | cons f fs =>
        simp only [calm, Bool.and_eq_true] at h ⊢
        exact ⟨h.1, ih (by omega) h.2⟩

theorem step_scan_fault {path : String} {stmt : sqlite3_stmt} {w : World} {f : Fault}
    (hs : connState stmt.conn w = some (ConnState.live path)) (hf : nextFault w = some f) :
    sqlite3_step stmt w =
      some (Rc.error f.code, stmt, { advance (Call.step stmt.sql) w with errmsg := f.msg }) := by
  simp [sqlite3_step, hs, hf]

theorem step_scan_row {path : String} {t : Table} {stmt : sqlite3_stmt} {w : World}
    {k v : String} (hsql : stmt.sql = Sql.selectAll)
    (hs : connState stmt.conn w = some (ConnState.live path)) (hf : nextFault w = none)
    (ht : (readFile path w.files).getD [] = t) (hr : t[stmt.cursor]? = some (k, v)) :
    sqlite3_step stmt w =
      some (SQLITE_ROW, { stmt with cursor := stmt.cursor + 1, cols := [k, v] },
        advance (Call.step stmt.sql) w) := by
  simp [sqlite3_step, hs, hf, hsql, ht, hr]

theorem step_scan_done {path : String} {t : Table} {stmt : sqlite3_stmt} {w : World}
    (hsql : stmt.sql = Sql.selectAll)
    (hs : connState stmt.conn w = some (ConnState.live path)) (hf : nextFault w = none)
    (ht : (readFile path w.files).getD [] = t) (hr : t[stmt.cursor]? = none) :
    sqlite3_step stmt w =
      some (SQLITE_DONE, { stmt with cols := [] }, advance (Call.step stmt.sql) w) := by
  simp [sqlite3_step, hs, hf, hsql, ht, hr]

theorem scanned_cons_quiet (r : Record) (rs : List Record) {w : World}
    (hf : nextFault w = none) :
    scanned (r :: rs) w.faults = r :: scanned rs w.faults.tail := by
  unfold nextFault at hf
  cases hfs : w.faults with
  | nil => simp [scanned, scanned_nil_faults]
  | cons f fs =>
    rw [hfs] at hf
    simp only [List.headD_cons] at hf
    subst hf
    simp [scanned]

theorem scanned_fault (rows : List Record) {w : World} {f : Fault}
    (hf : nextFault w = some f) : scanned rows w.faults = [] := by
  unfold nextFault at hf
  cases hfs : w.faults with
  | nil => rw [hfs] at hf; simp at hf
  | cons g fs =>
    rw [hfs] at hf
    simp only [List.headD_cons] at hf
    subst hf
    cases rows <;> simp [scanned]

theorem db_print_loop_spec (path : String) (t : Table) :
    ∀ (fuel : Nat) (rows : List Record) (stmt : sqlite3_stmt) (w : World),
      stmt.sql = Sql.selectAll → connState stmt.conn w = some (ConnState.live path) →
      (readFile path w.files).getD [] = t → t.drop stmt.cursor = rows → rows.length < fuel →
      ∃ stmt1 w1, db_print_loop fuel stmt w = some (stmt1, w1) ∧
        w1.stdout = w.stdout ++ (scanned rows w.faults).map fmtRow ∧
        w1.stderr = w.stderr ∧ w1.files = w.files ∧ w1.conns = w.conns := by
  intro fuel
  induction fuel with
  | zero => intro rows stmt w _ _ _ _ h; omega
  | succ fuel ih =>
    intro rows stmt w hsql hs ht hrows hlen
    cases hf : nextFault w with
    | some f =>
      refine ⟨stmt, { advance (Call.step stmt.sql) w with errmsg := f.msg }, ?_, ?_, rfl, rfl, rfl⟩
      · rw [db_print_loop, step_scan_fault hs hf]
        simp
      · simp [scanned_fault rows hf]
    | none =>
      cases rows with
      | nil =>
        refine ⟨{ stmt with cols := [] }, advance (Call.step stmt.sql) w, ?_, ?_, rfl, rfl, rfl⟩
        · rw [db_print_loop, step_scan_done hsql hs hf ht (drop_nil_getElem? hrows)]
          simp
        · simp [scanned]
      | cons r rs =>
        obtain ⟨hr, hdrop⟩ := drop_cons_getElem? hrows
        obtain ⟨k, v⟩ := r
        obtain ⟨stmt1, w1, hloop, hout, herr, hfiles, hconns⟩ :=
          ih rs { stmt with cursor := stmt.cursor + 1, cols := [k, v] }
            (printf (fmtRow (k, v)) (advance (Call.step stmt.sql) w))
            hsql hs ht hdrop (by simpa using hlen)
        refine ⟨stmt1, w1, ?_, ?_, herr, hfiles, hconns⟩
        · rw [db_print_loop, step_scan_row hsql hs hf ht hr]
          simpa [fmtRow, fmtS, sqlite3_column_text] using hloop
        · rw [hout, scanned_cons_quiet (k, v) rs hf]
          simp [printf]

theorem db_print_live {d : db} {i : Nat} {path : String} {t : Table} {w : World}
    (hc : d.conn = some i) (hs : connState i w = some (ConnState.live path))
    (ht : readFile path w.files = some t) (hf : nextFault w = none) :
    ∃ w1, db_print d w = some w1 ∧
      w1.stdout = w.stdout ++ (scanned t w.faults.tail).map fmtRow ∧
      w1.stderr = w.stderr ∧ w1.files = w.files ∧ w1.conns = w.conns := by
  obtain ⟨stmt1, w1, hloop, hout, herr, hfiles, hconns⟩ :=
    db_print_loop_spec path t (t.length + 1) t
      { conn := i, sql := Sql.selectAll, p1 := none, p2 := none, cursor := 0, cols := [] }
      (advance (Call.prepare Sql.selectAll) w) rfl hs (by simp [ht]) rfl (Nat.lt_succ_self _)
  refine ⟨sqlite3_finalize stmt1 w1, ?_, hout, herr, hfiles, hconns⟩
  unfold db_print sqlite3_prepare_v2
  simp [hc, hs, hf, ht, scanLength, hloop]

theorem db_print_prepare_fails {d : db} {i : Nat} {path : String} {w : World}
    (hc : d.conn = some i) (hs : connState i w = some (ConnState.live path))
    (hf : ¬ (nextFault w = none ∧ readFile path w.files ≠ none)) :
    ∃ w1, db_print d w = some w1 ∧ w1.stdout = w.stdout ∧
      w1.stderr = w.stderr ++ ["Failed to prepare statement: " ++ w1.errmsg ++ "\n"] ∧
      w1.files = w.files ∧ w1.conns = w.conns := by
  unfold db_print sqlite3_prepare_v2
  simp only [hc, connState_advance, hs]
  cases hn : nextFault w with
  | some f => simp [fprintf_stderr, sqlite3_errmsg]
  | none =>
    cases ht : readFile path w.files with
    | none => simp [ht, fprintf_stderr, sqlite3_errmsg]
    | some t => simp [hn, ht] at hf

/-! ## Sequences of upserts -/

theorem selectValue_append (k : String) (a b : Table) :
    selectValue k (a ++ b) = (selectValue k a).orElse (fun _ => selectValue k b) := by
  induction a with
  | nil => simp [selectValue]
  | cons hd tl ih =>
    obtain ⟨k0, v0⟩ := hd
    by_cases h : k0 = k
    · simp [selectValue, h]
    · simp [selectValue, h, ih]

theorem selectValue_applySets (k : String) (kvs : List (String × String)) :
    ∀ t : Table, selectValue k (applySets kvs t) =
      (lastSet k kvs).orElse (fun _ => selectValue k t) := by
  induction kvs with
  | nil => intro t; simp [applySets, lastSet, selectValue]
  | cons hd tl ih =>
    intro t
    obtain ⟨k0, v0⟩ := hd
    have h1 : applySets ((k0, v0) :: tl) t = applySets tl (upsert k0 v0 t) := rfl
    rw [h1, ih]
    simp only [lastSet, List.reverse_cons, selectValue_append]
    cases hl : selectValue k tl.reverse with
    | some v => simp
    | none =>
      by_cases hk : k0 = k
      · subst hk; simp [selectValue, selectValue_upsert]
      · have hk2 : k ≠ k0 := fun e => hk e.symm
        simp [selectValue, hk, selectValue_upsert_ne _ _ _ _ hk2]

theorem keys_applySets_nodup (kvs : List (String × String)) :
    ∀ t : Table, (keys t).Nodup → (keys (applySets kvs t)).Nodup := by
  induction kvs with
  | nil => intro t h; exact h
  | cons hd tl ih =>
    intro t h
    exact ih _ (keys_upsert_nodup hd.1 hd.2 t h)

theorem applySets_distinct (kvs : List (String × String)) :
    ∀ t : Table, (kvs.map Prod.fst).Nodup → (∀ k ∈ kvs.map Prod.fst, k ∉ keys t) →
      applySets kvs t = t ++ kvs := by
  induction kvs with
  | nil => intro t _ _; simp [applySets]
  | cons hd tl ih =>
    intro t hn hd2
    obtain ⟨k0, v0⟩ := hd
    simp only [List.map_cons, List.nodup_cons] at hn
    have h1 : applySets ((k0, v0) :: tl) t = applySets tl (upsert k0 v0 t) := rfl
    have hk0 : k0 ∉ keys t := hd2 k0 (by simp)
    rw [h1, upsert_not_mem k0 v0 t hk0, ih _ hn.2]
    · simp
    · intro k hk
      simp only [keys, List.map_append, List.map_cons, List.map_nil, List.mem_append,
        List.mem_singleton, not_or]
      refine ⟨hd2 k (by simp [hk]), ?_⟩
      intro e
      exact hn.1 (e ▸ hk)

theorem setAll_spec {d : db} {i : Nat} {path : String} (hc : d.conn = some i) :
    ∀ (kvs : List (String × String)) (t : Table) (w w1 : World),
      connState i w = some (ConnState.live path) → readFile path w.files = some t →
      setAll d kvs w = some w1 →
      connState i w1 = some (ConnState.live path) ∧
        readFile path w1.files = some (applySets kvs t) ∧
        w1.stdout = w.stdout ∧ w1.stderr = w.stderr := by
  intro kvs
  induction kvs with
  | nil =>
    intro t w w1 hs ht h
    simp only [setAll, Option.some.injEq] at h
    subst h
    exact ⟨hs, ht, rfl, rfl⟩
  | cons hd tl ih =>
    intro t w w1 hs ht h
    obtain ⟨k0, v0⟩ := hd
    simp only [setAll] at h
    cases hset : db_set d k0 v0 w with
    | none => simp [hset] at h
    | some res =>
      obtain ⟨r, w0⟩ := res
      simp only [hset] at h
      by_cases hr : r = 1
      · subst hr
        simp only [if_true] at h
        obtain ⟨j, p, t0, hc0, hs0, ht0, _, hfiles, hconns, hout, herr⟩ := db_set_inv hset
        rw [hc] at hc0
        simp only [Option.some.injEq] at hc0
        subst hc0
        rw [hs] at hs0
        simp only [Option.some.injEq, ConnState.live.injEq] at hs0
        subst hs0
        rw [ht] at ht0
        simp only [Option.some.injEq] at ht0
        subst ht0
        have hs1 : connState i w0 = some (ConnState.live path) := by
          unfold connState at hs ⊢
          rw [hconns]; exact hs
        have ht1 : readFile path w0.files = some (upsert k0 v0 t) := by
          rw [hfiles, readFile_writeFile]
        obtain ⟨a, b2, c2, d2⟩ := ih _ w0 w1 hs1 ht1 h
        exact ⟨a, b2, c2.trans hout, d2.trans herr⟩
      · simp [hr] at h

theorem tableOf_inv {d : db} {w : World} {t : Table} (h : tableOf d w = some t) :
    ∃ i path, d.conn = some i ∧ connState i w = some (ConnState.live path) ∧
      readFile path w.files = some t := by
  unfold tableOf openAt at h
  cases hc : d.conn with
  | none => simp [hc] at h
  | some i =>
    simp only [hc] at h
    cases hs : connState i w with
    | none => simp [hs] at h
    | some st =>
      cases st with
      | failed => simp [hs] at h
      | released => simp [hs] at h
      | live path =>
        simp only [hs, Option.some_bind] at h
        exact ⟨i, path, rfl, hs, h⟩

theorem tableOf_intro {d : db} {w : World} {i : Nat} {path : String}
    (hc : d.conn = some i) (hs : connState i w = some (ConnState.live path)) :
    tableOf d w = readFile path w.files := by
  simp [tableOf, openAt, hc, hs]

theorem lastSet_eq_none {k : String} {kvs : List (String × String)}
    (h : k ∉ kvs.map Prod.fst) : lastSet k kvs = none := by
  unfold lastSet
  rw [selectValue_eq_none]
  simpa [keys] using h

theorem length_upsert_le (k v : String) (t : Table) : (upsert k v t).length ≤ t.length + 1 := by
  induction t with
  | nil => simp [upsert]
  | cons hd tl ih =>
    obtain ⟨k0, v0⟩ := hd
    by_cases h : k0 = k
    · simp [upsert, h]
    · simp [upsert, h]; omega

theorem length_applySets_le (kvs : List (String × String)) :
    ∀ t : Table, (applySets kvs t).length ≤ t.length + kvs.length := by
  induction kvs with
  | nil => intro t; simp [applySets]
  | cons hd tl ih =>
    intro t
    have h1 : applySets (hd :: tl) t = applySets tl (upsert hd.1 hd.2 t) := rfl
    have h2 := ih (upsert hd.1 hd.2 t)
    have h3 := length_upsert_le hd.1 hd.2 t
    rw [h1]
    simp only [List.length_cons]
    omega

/-! ## Opening and closing -/

theorem db_init_inv {d0 d : db} {path : String} {w w1 : World}
    (h : db_init d0 path w = some (1, d, w1)) :
    d.conn = some w.conns.length ∧
      connState w.conns.length w1 = some (ConnState.live path) ∧
      readFile path w1.files = some ((readFile path w.files).getD []) ∧
      calm 2 w.faults = true := by
  unfold db_init sqlite3_open at h
  cases hf : nextFault w with
  | some f => simp [hf] at h
  | none =>
    simp only [hf] at h
    simp [sqlite3_exec, connState] at h
    cases hf2 : nextFault (advance (Call.open path) w) with
    | some f =>
      unfold nextFault at hf2
      simp at hf2
      simp [nextFault, hf2] at h
    | none =>
      have hq : calm 2 w.faults = true := (calm_two_iff w (Call.open path)).2 ⟨hf, hf2⟩
      unfold nextFault at hf2
      simp at hf2
      simp [nextFault, hf2, runWrite] at h
      cases ht : readFile path w.files with
      | none =>
        simp [ht, storeTable] at h
        obtain ⟨hd, hw⟩ := h
        subst hd; subst hw
        simp [connState, readFile_writeFile, hq]
      | some t =>
        simp [ht, storeTable] at h
        obtain ⟨hd, hw⟩ := h
        subst hd; subst hw
        simp [connState, readFile_writeFile, hq]

theorem db_close_inv {d d1 : db} {w w1 : World} (h : db_close d w = some (d1, w1)) :
    d1 = d ∧ w1.files = w.files ∧ w1.faults = w.faults := by
  unfold db_close sqlite3_close at h
  cases hc : d.conn with
  | none =>
    simp [hc, logCall] at h
    obtain ⟨hd, hw⟩ := h
    subst hd; subst hw
    exact ⟨rfl, rfl, rfl⟩
  | some i =>
    simp only [hc] at h
    cases hs : connState i w with
    | none => simp [hs] at h
    | some st =>
      cases st with
      | released => simp [hs] at h
      | failed =>
        simp [hs, logCall] at h
        obtain ⟨hd, hw⟩ := h
        subst hd; subst hw
        exact ⟨rfl, rfl, rfl⟩
      | live path =>
        simp [hs, logCall] at h
        obtain ⟨hd, hw⟩ := h
        subst hd; subst hw
        exact ⟨rfl, rfl, rfl⟩

/-! ## The demonstration run of `main` -/

theorem main_run (data : db) :
    (main data World.empty).map (fun r => (r.1, r.2.stdout, r.2.stderr)) =
      some (0, ["Temperature: 24.1\n", "All key-value pairs:\n", "temperature : 24.1\n",
        "status : OK\n"], []) := by
  rfl

/-! ## The claims -/

/-- C1 (last-write-wins): when `db_set d k v1` and then `db_set d k v2` both
return 1, and the engine meets no failure during the lookup that follows (its
prepare and its step), `db_get d k` returns a copy of `v2`, whatever the table
held for `k` before. -/
theorem C1_last_write_wins (d : db) (k v1 v2 : String) (w w1 w2 : World)
    (h1 : db_set d k v1 w = some (1, w1)) (h2 : db_set d k v2 w1 = some (1, w2))
    (hq : calm 2 w2.faults = true) :
    ∃ w3, db_get d k w2 = some (some v2, w3) := by
  have _ := h1
  obtain ⟨i, path, t, hc, hs, _, _, hfiles, hconns, _, _⟩ := db_set_inv h2
  have hs2 : connState i w2 = some (ConnState.live path) := by
    unfold connState at hs ⊢
    rw [hconns]; exact hs
  obtain ⟨w3, hget, _⟩ := db_get_live k hc hs2
  refine ⟨w3, ?_⟩
  rw [hget, hq, hfiles, readFile_writeFile]
  simp [selectValue_upsert]

theorem C1_last_write_wins_witness :
    ∃ w3, db_get ⟨some 0⟩ "k" (worldOf (db_set ⟨some 0⟩ "k" "b"
        (worldOf (db_set ⟨some 0⟩ "k" "a" (World.opened "f" [("k", "old")] [])))))
      = some (some "b", w3) :=
  C1_last_write_wins ⟨some 0⟩ "k" "a" "b" (World.opened "f" [("k", "old")] [])
    (worldOf (db_set ⟨some 0⟩ "k" "a" (World.opened "f" [("k", "old")] [])))
    (worldOf (db_set ⟨some 0⟩ "k" "b"
        (worldOf (db_set ⟨some 0⟩ "k" "a" (World.opened "f" [("k", "old")] [])))))
    (by decide) (by decide) (by decide)

/-- C2 (absent and present keys): after any sequence of `db_set` calls that all
return 1 on a store whose table was empty, none of them with key `k`,
`db_get d k` returns NULL; and when the table of an open store holds a record
`(k, v)` (keys being unique) and the engine meets no failure during the lookup,
`db_get d k` returns a copy of `v`, not NULL. -/
theorem C2_get_absent_and_present (d : db) (k : String) :
    (∀ (kvs : List (String × String)) (w w1 : World),
      tableOf d w = some [] → setAll d kvs w = some w1 → k ∉ kvs.map Prod.fst →
      ∃ w2, db_get d k w1 = some (none, w2)) ∧
    (∀ (t : Table) (v : String) (w : World),
      tableOf d w = some t → (keys t).Nodup → (k, v) ∈ t → calm 2 w.faults = true →
      ∃ w2, db_get d k w = some (some v, w2)) := by
  constructor
  · intro kvs w w1 h0 hsets hk
    obtain ⟨i, path, hc, hs, ht⟩ := tableOf_inv h0
    obtain ⟨hs1, ht1, _, _⟩ := setAll_spec hc kvs [] w w1 hs ht hsets
    obtain ⟨w2, hget, _⟩ := db_get_live k hc hs1
    refine ⟨w2, ?_⟩
    rw [hget, ht1]
    simp [selectValue_applySets, lastSet_eq_none hk, selectValue]
  · intro t v w h0 hn hmem hq
    obtain ⟨i, path, hc, hs, ht⟩ := tableOf_inv h0
    obtain ⟨w2, hget, _⟩ := db_get_live k hc hs
    refine ⟨w2, ?_⟩
    rw [hget, hq, ht]
    simp [selectValue_of_mem hn hmem]

theorem C2_get_absent_and_present_witness :
    (∃ w2, db_get ⟨some 0⟩ "x"
        ((setAll ⟨some 0⟩ [("a", "1"), ("b", "2")] (World.opened "f" [] [])).getD World.empty)
      = some (none, w2)) ∧
    (∃ w2, db_get ⟨some 0⟩ "b" (World.opened "f" [("a", "1"), ("b", "2")] [])
      = some (some "2", w2)) :=
  ⟨(C2_get_absent_and_present ⟨some 0⟩ "x").1 [("a", "1"), ("b", "2")]
      (World.opened "f" [] []) _ (by decide) (by decide) (by decide),
   (C2_get_absent_and_present ⟨some 0⟩ "b").2 [("a", "1"), ("b", "2")] "2"
      (World.opened "f" [("a", "1"), ("b", "2")] []) (by decide) (by decide) (by decide)
      (by decide)⟩

/-- C3 (enumeration): after any sequence of `db_set` calls that all return 1 on a
store whose table was empty, and when the engine meets no failure during the
scan, `db_print` prints exactly the rows of the table, one line each; these rows
have pairwise distinct keys, their keys are the keys that were set, and they
hold `(k, v)` exactly when `v` is the value of the most recent call with key
`k`.  With pairwise distinct keys in the calls
there are as many rows as calls, and for the calls
`("temperature","23.4")`, `("status","OK")`, `("temperature","24.1")` the rows
are exactly `("temperature","24.1")` and `("status","OK")`. -/
theorem C3_print_enumerates (d : db) (kvs : List (String × String)) (w w1 : World)
    (h0 : tableOf d w = some []) (hsets : setAll d kvs w = some w1)
    (hq : calm (kvs.length + 2) w1.faults = true) :
    ∃ rows w2, db_print d w1 = some w2 ∧ tableOf d w1 = some rows ∧
      w2.stdout = w1.stdout ++ rows.map fmtRow ∧
      (keys rows).Nodup ∧
      (∀ k, k ∈ keys rows ↔ k ∈ kvs.map Prod.fst) ∧
      (∀ k v, (k, v) ∈ rows ↔ lastSet k kvs = some v) ∧
      ((kvs.map Prod.fst).Nodup → rows.length = kvs.length) ∧
      (kvs = [("temperature", "23.4"), ("status", "OK"), ("temperature", "24.1")] →
        ∀ r, r ∈ rows ↔ r = ("temperature", "24.1") ∨ r = ("status", "OK")) := by
  obtain ⟨i, path, hc, hs, ht⟩ := tableOf_inv h0
  obtain ⟨hs1, ht1, _, _⟩ := setAll_spec hc kvs [] w w1 hs ht hsets
  obtain ⟨hf, hq1⟩ := calm_succ hq (Call.prepare Sql.selectAll)
  obtain ⟨w2, hprint, hout, _⟩ := db_print_live hc hs1 ht1 hf
  have hlen : (applySets kvs []).length ≤ kvs.length + 1 := by
    have := length_applySets_le kvs []
    simp at this
    omega
  have hnodup : (keys (applySets kvs [])).Nodup :=
    keys_applySets_nodup kvs [] (by simp [keys])
  refine ⟨applySets kvs [], w2, hprint, ?_, ?_, hnodup, ?_, ?_, ?_, ?_⟩
  · rw [tableOf_intro hc hs1, ht1]
  · have hq2 : calm (applySets kvs []).length w1.faults.tail = true := calm_mono hlen hq1
    rw [hout, scanned_calm _ _ hq2]
  · intro k
    have h1 := selectValue_eq_none k (applySets kvs [])
    have h2 := selectValue_eq_none k kvs.reverse
    rw [selectValue_applySets] at h1
    have h3 : keys kvs.reverse = (kvs.map Prod.fst).reverse := by simp [keys]
    rw [h3, List.mem_reverse] at h2
    unfold lastSet at h1
    cases hl : selectValue k kvs.reverse with
    | none =>
      rw [hl] at h1 h2
      simp only [Option.orElse, selectValue, true_iff] at h1 h2
      exact ⟨fun hm => absurd hm h1, fun hm => absurd hm h2⟩
    | some v =>
      rw [hl] at h1 h2
      simp only [Option.orElse, false_iff, not_not, reduceCtorEq] at h1 h2
      exact ⟨fun _ => h2, fun _ => h1⟩
  · intro k v
    constructor
    · intro hmem
      have := selectValue_of_mem hnodup hmem
      rw [selectValue_applySets] at this
      simpa [selectValue] using this
    · intro hl
      apply selectValue_mem
      rw [selectValue_applySets, hl]
      simp
  · intro hd
    rw [applySets_distinct kvs [] hd (by simp [keys])]
    simp
  · intro hk r
    subst hk
    have : applySets [("temperature", "23.4"), ("status", "OK"), ("temperature", "24.1")] []
        = [("temperature", "24.1"), ("status", "OK")] := by decide
    rw [this]
    simp

theorem C3_print_enumerates_witness :
    (∃ (rows : List Record) (w2 : World),
      db_print ⟨some 0⟩ ((setAll ⟨some 0⟩
          [("temperature", "23.4"), ("status", "OK"), ("temperature", "24.1")]
          (World.opened "f" [] [])).getD World.empty) = some w2 ∧
      w2.stdout = rows.map fmtRow ∧
      ∀ r, r ∈ rows ↔ r = ("temperature", "24.1") ∨ r = ("status", "OK")) ∧
    (∃ (rows : List Record) (w2 : World),
      db_print ⟨some 0⟩ ((setAll ⟨some 0⟩ [("a", "1"), ("b", "2")]
          (World.opened "f" [] [])).getD World.empty) = some w2 ∧
      w2.stdout = rows.map fmtRow ∧ rows.length = 2) := by
  constructor
  · obtain ⟨rows, w2, h1, _, h2, _, _, _, _, h3⟩ :=
      C3_print_enumerates ⟨some 0⟩
        [("temperature", "23.4"), ("status", "OK"), ("temperature", "24.1")]
        (World.opened "f" [] [])
        ((setAll ⟨some 0⟩ [("temperature", "23.4"), ("status", "OK"), ("temperature", "24.1")]
          (World.opened "f" [] [])).getD World.empty)
        (by decide) (by decide) (by decide)
    exact ⟨rows, w2, h1, by simpa using h2, h3 rfl⟩
  · obtain ⟨rows, w2, h1, _, h2, _, _, _, h3, _⟩ :=
      C3_print_enumerates ⟨some 0⟩ [("a", "1"), ("b", "2")] (World.opened "f" [] [])
        ((setAll ⟨some 0⟩ [("a", "1"), ("b", "2")] (World.opened "f" [] [])).getD World.empty)
        (by decide) (by decide) (by decide)
    exact ⟨rows, w2, h1, by simpa using h2, h3 (by decide)⟩

/-- C4 (round trip across close and reopen): when `db_init` on `path` returns 1,
`db_set d k v` returns 1, `db_close` is called, `db_init` on the same path
returns 1 again, and the engine meets no failure during the lookup, then
`db_get` on the reopened handle returns a copy of `v`; the table behind the
reopened handle is the table the closed handle had. -/
theorem C4_round_trip (d0 d d1 d2 : db) (path k v : String) (w w1 w2 w3 w4 : World)
    (h1 : db_init d0 path w = some (1, d, w1)) (h2 : db_set d k v w1 = some (1, w2))
    (h3 : db_close d w2 = some (d1, w3)) (h4 : db_init d1 path w3 = some (1, d2, w4))
    (hq : calm 2 w4.faults = true) :
    (∃ w5, db_get d2 k w4 = some (some v, w5)) ∧
      tableOf d2 w4 = tableOf d w2 ∧ tableOf d w2 ≠ none := by
  obtain ⟨hc, hs, _, _⟩ := db_init_inv h1
  obtain ⟨i, p, t, hc2, hs2, _, _, hfiles, hconns, _, _⟩ := db_set_inv h2
  rw [hc] at hc2
  simp only [Option.some.injEq] at hc2
  subst hc2
  rw [hs] at hs2
  simp only [Option.some.injEq, ConnState.live.injEq] at hs2
  subst hs2
  have hsw2 : connState w.conns.length w2 = some (ConnState.live path) := by
    unfold connState at hs ⊢
    rw [hconns]; exact hs
  have htw2 : readFile path w2.files = some (upsert k v t) := by
    rw [hfiles, readFile_writeFile]
  obtain ⟨_, hf3, _⟩ := db_close_inv h3
  obtain ⟨hc4, hs4, ht4, _⟩ := db_init_inv h4
  rw [hf3, htw2] at ht4
  simp only [Option.getD_some] at ht4
  obtain ⟨w5, hget, _⟩ := db_get_live k hc4 hs4
  refine ⟨⟨w5, ?_⟩, ?_, ?_⟩
  · rw [hget, hq, ht4]
    simp [selectValue_upsert]
  · rw [tableOf_intro hc4 hs4, tableOf_intro hc hsw2, ht4, htw2]
  · rw [tableOf_intro hc hsw2, htw2]
    simp

theorem C4_round_trip_witness :
    (∃ w5, db_get ⟨some 1⟩ "k" demoReopened = some (some "v", w5)) ∧
      tableOf ⟨some 1⟩ demoReopened = tableOf ⟨some 0⟩ demoSet ∧
      tableOf ⟨some 0⟩ demoSet ≠ none :=
  C4_round_trip ⟨none⟩ ⟨some 0⟩ ⟨some 0⟩ ⟨some 1⟩ "f" "k" "v"
    World.empty demoInit demoSet demoClosed demoReopened
    (by decide) (by decide) (by decide) (by decide) (by decide)

theorem openAt_inv {d : db} {w : World} {path : String} (h : openAt d w = some path) :
    ∃ i, d.conn = some i ∧ connState i w = some (ConnState.live path) := by
  unfold openAt at h
  cases hc : d.conn with
  | none => simp [hc] at h
  | some i =>
    simp only [hc] at h
    cases hs : connState i w with
    | none => simp [hs] at h
    | some st =>
      cases st with
      | failed => simp [hs] at h
      | released => simp [hs] at h
      | live p =>
        simp only [hs, Option.some.injEq] at h
        subst h
        exact ⟨i, rfl, hs⟩

/-- C5, counterexample: on a store that holds `("k","v")`, a lookup whose prepare
fails and a lookup whose step fails both return NULL, the very result of a
lookup that runs without failure on a store with no record for `"k"`. -/
theorem C5_counterexample :
    (db_get ⟨some 0⟩ "k" (World.opened "f" [("k", "v")] [some ⟨10, "disk I/O error"⟩])).map
        Prod.fst = some none ∧
    (db_get ⟨some 0⟩ "k" (World.opened "f" [("k", "v")] [none, some ⟨10, "disk I/O error"⟩])).map
        Prod.fst = some none ∧
    (db_get ⟨some 0⟩ "k" (World.opened "f" [] [])).map Prod.fst = some none := by
  decide

/-- C5, amended: on an open store `db_get` always returns; it returns a copy of
the value exactly when the engine meets no failure during the lookup and the
table holds a row for the key, and it returns NULL, its not-found result, in
every other case, engine failure included.  A prepare failure is reported by one
line on stderr; a lookup without engine failure writes nothing to stderr. -/
theorem C5_get_null_on_failure_or_absence (d : db) (k path : String) (w : World)
    (h : openAt d w = some path) :
    ∃ r w1, db_get d k w = some (r, w1) ∧
      (∀ v, r = some v ↔
        (calm 2 w.faults = true ∧ (readFile path w.files).bind (selectValue k) = some v)) ∧
      (r = none ↔
        (calm 2 w.faults = false ∨ (readFile path w.files).bind (selectValue k) = none)) ∧
      (¬ (nextFault w = none ∧ readFile path w.files ≠ none) →
        w1.stderr = w.stderr ++ ["Failed to prepare statement: " ++ w1.errmsg ++ "\n"]) ∧
      (calm 2 w.faults = true → readFile path w.files ≠ none → w1.stderr = w.stderr) := by
  obtain ⟨i, hc, hs⟩ := openAt_inv h
  obtain ⟨w1, hget, _, _, _, he1, he2⟩ := db_get_live k hc hs
  refine ⟨_, w1, hget, ?_, ?_, he2, ?_⟩
  · intro v
    by_cases hq : calm 2 w.faults = true
    · simp [hq]
    · simp [hq]
  · by_cases hq : calm 2 w.faults = true
    · simp [hq]
    · simp [hq]
  · intro hq
    exact he1 ((calm_two_iff w (Call.prepare Sql.selectValue)).1 hq).1

theorem C5_get_null_on_failure_or_absence_witness :
    ∃ r w1, db_get ⟨some 0⟩ "k" demoScanFails = some (r, w1) ∧
      (∀ v, r = some v ↔
        (calm 2 demoScanFails.faults = true ∧
          (readFile "f" demoScanFails.files).bind (selectValue "k") = some v)) ∧
      (r = none ↔
        (calm 2 demoScanFails.faults = false ∨
          (readFile "f" demoScanFails.files).bind (selectValue "k") = none)) ∧
      (¬ (nextFault demoScanFails = none ∧ readFile "f" demoScanFails.files ≠ none) →
        demoScanFails.stderr ++ ["Failed to prepare statement: " ++ w1.errmsg ++ "\n"]
          = w1.stderr) ∧
      (calm 2 demoScanFails.faults = true → readFile "f" demoScanFails.files ≠ none →
        w1.stderr = demoScanFails.stderr) := by
  obtain ⟨r, w1, h1, h2, h3, h4, h5⟩ :=
    C5_get_null_on_failure_or_absence ⟨some 0⟩ "k" "f" demoScanFails (by decide)
  exact ⟨r, w1, h1, h2, h3, fun hx => (h4 hx).symm, h5⟩

theorem prepare_total {p : Ptr} (sql : Sql) {w : World} (h : handleOk p w = true) :
    ∃ rcP st wP, sqlite3_prepare_v2 p sql w = some (rcP, st, wP) ∧
      wP.log = w.log ++ [Call.prepare sql] ∧ wP.files = w.files ∧ wP.stdout = w.stdout ∧
      (rcP = SQLITE_OK → ∃ s path, st = some s ∧ s.sql = sql ∧
        connState s.conn wP = some (ConnState.live path)) := by
  unfold handleOk at h
  unfold sqlite3_prepare_v2
  cases p with
  | none => exact ⟨_, _, _, rfl, rfl, rfl, rfl, fun e => by simp at e⟩
  | some i =>
    simp only [connState_advance]
    cases hs : connState i w with
    | none => simp [hs] at h
    | some st =>
      cases st with
      | released => simp [hs] at h
      | failed => exact ⟨_, _, _, rfl, rfl, rfl, rfl, fun e => by simp at e⟩
      | live path =>
        cases hf : nextFault w with
        | some f => exact ⟨_, _, _, rfl, rfl, rfl, rfl, fun e => by simp at e⟩
        | none =>
          by_cases hc : sql ≠ Sql.create ∧ readFile path (advance (Call.prepare sql) w).files = none
          · dsimp only
            rw [if_pos hc]
            exact ⟨_, _, _, rfl, rfl, rfl, rfl, fun e => by simp at e⟩
          · dsimp only
            rw [if_neg hc]
            exact ⟨_, _, _, rfl, rfl, rfl, rfl, fun _ => ⟨_, path, rfl, rfl, hs⟩⟩

theorem step_total {s : sqlite3_stmt} {path : String} {w : World}
    (hs : connState s.conn w = some (ConnState.live path)) :
    ∃ rcS s1 wS, sqlite3_step s w = some (rcS, s1, wS) ∧
      wS.log = w.log ++ [Call.step s.sql] ∧ wS.stdout = w.stdout := by
  unfold sqlite3_step
  simp only [connState_advance, hs]
  cases hf : nextFault w with
  | some f => exact ⟨_, _, _, rfl, rfl, rfl⟩
  | none =>
    cases hsql : s.sql with
    | create => exact ⟨_, _, _, rfl, rfl, rfl⟩
    | insert => exact ⟨_, _, _, rfl, rfl, rfl⟩
    | selectValue =>
      simp only
      split <;> exact ⟨_, _, _, rfl, rfl, rfl⟩
    | selectAll =>
      simp only
      split <;> exact ⟨_, _, _, rfl, rfl, rfl⟩

theorem db_print_total {d : db} {w : World} (h : handleOk d.conn w = true) :
    ∃ w1, db_print d w = some w1 := by
  obtain ⟨rcP, st, wP, hprep, _, _, _, hok⟩ := prepare_total Sql.selectAll h
  by_cases hrc : rcP = SQLITE_OK
  · obtain ⟨s, path, hst, hsql, hconn⟩ := hok hrc
    subst hst
    have hsc : scanLength s wP = ((readFile path wP.files).getD []).length := by
      simp [scanLength, hconn]
    obtain ⟨s1, w1, hloop, _⟩ :=
      db_print_loop_spec path ((readFile path wP.files).getD []) (scanLength s wP + 1)
        (((readFile path wP.files).getD []).drop s.cursor) s wP hsql hconn rfl rfl
        (by rw [hsc, List.length_drop]; omega)
    exact ⟨sqlite3_finalize s1 w1, by simp [db_print, hprep, hrc, hloop]⟩
  · exact ⟨_, by simp [db_print, hprep, hrc]; rfl⟩

/-- C6 (db_set reports engine failure): on a handle that is NULL or addresses
an unreleased connection, `db_set` always returns, with 0 or 1; it returns 0
exactly when preparing the upsert fails (result code other than `SQLITE_OK`) or
the step of the prepared and bound statement ends with a result code other than
`SQLITE_DONE`, and 1 otherwise; the call issues exactly one prepare and at most
one step. -/
theorem C6_set_reports_engine_failure (d : db) (k v : String) (w : World)
    (h : handleOk d.conn w = true) :
    ∃ r w1 rcP st wP, db_set d k v w = some (r, w1) ∧
      sqlite3_prepare_v2 d.conn Sql.insert w = some (rcP, st, wP) ∧
      (r = 0 ∨ r = 1) ∧
      (r = 0 ↔ (rcP ≠ SQLITE_OK ∨ ∃ s rcS s1 wS, st = some s ∧
        sqlite3_step (sqlite3_bind_text (sqlite3_bind_text s 1 k).2 2 v).2 wP
          = some (rcS, s1, wS) ∧ rcS ≠ SQLITE_DONE)) ∧
      ∃ extra, w1.log = w.log ++ extra ∧ extra.count (Call.prepare Sql.insert) = 1 ∧
        extra.count (Call.step Sql.insert) ≤ 1 := by
  obtain ⟨rcP, st, wP, hprep, hlog, _, _, hok⟩ := prepare_total Sql.insert h
  by_cases hrc : rcP = SQLITE_OK
  · obtain ⟨s, path, hst, hsql, hconn⟩ := hok hrc
    subst hst
    have hconn2 : connState (sqlite3_bind_text (sqlite3_bind_text s 1 k).2 2 v).2.conn wP
        = some (ConnState.live path) := by
      simpa [sqlite3_bind_text] using hconn
    have hsql2 : (sqlite3_bind_text (sqlite3_bind_text s 1 k).2 2 v).2.sql = Sql.insert := by
      simpa [sqlite3_bind_text] using hsql
    obtain ⟨rcS, s1, wS, hstep, hlogS, _⟩ := step_total hconn2
    rw [hsql2] at hlogS
    by_cases hd : rcS = SQLITE_DONE
    · refine ⟨1, sqlite3_finalize s1 wS, rcP, some s, wP, ?_, hprep, Or.inr rfl, ?_,
        [Call.prepare Sql.insert, Call.step Sql.insert, Call.finalize s1.sql], ?_, ?_, ?_⟩
      · simp [db_set, hprep, hrc, hstep, hd]
      · simp [hrc, hstep, hd]
      · simp [sqlite3_finalize, logCall, hlogS, hlog]
      · simp [List.count_cons]
      · simp [List.count_cons]
    · refine ⟨0, sqlite3_finalize s1 (fprintf_stderr
          ("Failed to execute statement: " ++ sqlite3_errmsg d.conn wS ++ "\n") wS),
        rcP, some s, wP, ?_, hprep, Or.inl rfl, ?_,
        [Call.prepare Sql.insert, Call.step Sql.insert, Call.finalize s1.sql], ?_, ?_, ?_⟩
      · simp [db_set, hprep, hrc, hstep, hd]
      · simp [hrc, hstep, hd]
      · simp [sqlite3_finalize, logCall, fprintf_stderr, hlogS, hlog]
      · simp [List.count_cons]
      · simp [List.count_cons]
  · refine ⟨0, fprintf_stderr
        ("Failed to prepare statement: " ++ sqlite3_errmsg d.conn wP ++ "\n") wP,
      rcP, st, wP, ?_, hprep, Or.inl rfl, ?_, [Call.prepare Sql.insert], ?_, ?_, ?_⟩
    · simp [db_set, hprep, hrc]
    · simp [hrc]
    · simp [fprintf_stderr, hlog]
    · simp
    · simp

theorem C6_set_reports_engine_failure_witness :
    ∃ r w1 rcP st wP,
      db_set ⟨some 0⟩ "k" "v" (World.opened "f" [] [none, some ⟨13, "database or disk is full"⟩])
        = some (r, w1) ∧
      sqlite3_prepare_v2 (some 0) Sql.insert
          (World.opened "f" [] [none, some ⟨13, "database or disk is full"⟩])
        = some (rcP, st, wP) ∧
      (r = 0 ∨ r = 1) ∧
      (r = 0 ↔ (rcP ≠ SQLITE_OK ∨ ∃ s rcS s1 wS, st = some s ∧
        sqlite3_step (sqlite3_bind_text (sqlite3_bind_text s 1 "k").2 2 "v").2 wP
          = some (rcS, s1, wS) ∧ rcS ≠ SQLITE_DONE)) ∧
      ∃ extra, w1.log =
          (World.opened "f" [] [none, some ⟨13, "database or disk is full"⟩]).log ++ extra ∧
        extra.count (Call.prepare Sql.insert) = 1 ∧ extra.count (Call.step Sql.insert) ≤ 1 :=
  C6_set_reports_engine_failure ⟨some 0⟩ "k" "v"
    (World.opened "f" [] [none, some ⟨13, "database or disk is full"⟩]) (by decide)

theorem scanned_replicate (f : Fault) (rest : List (Option Fault)) :
    ∀ (n : Nat) (t : Table), n ≤ t.length →
      scanned t (List.replicate n none ++ some f :: rest) = t.take n := by
  intro n
  induction n with
  | zero => intro t _; cases t <;> simp [scanned]
  | succ n ih =>
    intro t hn
    cases t with
    | nil => simp at hn
    | cons r rs =>
      simp only [List.length_cons, Nat.add_le_add_iff_right] at hn
      simp [List.replicate_succ, scanned, ih rs hn]

/-- C7, counterexample: the scan of a two-row table fails at the second step;
`db_print` has printed the first row, writes nothing to stderr, and ends in the
same output state as the normal scan of a table holding that single row. -/
theorem C7_counterexample :
    (db_print ⟨some 0⟩ demoScanFails).map (fun w => (w.stdout, w.stderr))
      = some (["a : 1\n"], []) ∧
    (db_print ⟨some 0⟩ (World.opened "f" [("a", "1")] [])).map (fun w => (w.stdout, w.stderr))
      = some (["a : 1\n"], []) := by
  decide

/-- C7, amended: `db_print` returns no value to its caller, whether the scan
ends normally or by an engine failure.  On an open store whose prepare
succeeds, when the engine returns `n` rows and then fails at the next step, the
`n` rows already returned have been printed and stay on stdout, and the scan
stops there. -/
theorem C7_print_keeps_rows_before_failure (d : db) (path : String) (t : Table) (w : World)
    (n : Nat) (f : Fault) (rest : List (Option Fault))
    (h : openAt d w = some path) (ht : readFile path w.files = some t) (hn : n ≤ t.length)
    (hfs : w.faults = none :: (List.replicate n none ++ some f :: rest)) :
    ∃ w1, db_print d w = some w1 ∧ w1.stdout = w.stdout ++ (t.take n).map fmtRow := by
  obtain ⟨i, hc, hs⟩ := openAt_inv h
  have hf : nextFault w = none := by simp [nextFault, hfs]
  obtain ⟨w1, hprint, hout, _⟩ := db_print_live hc hs ht hf
  refine ⟨w1, hprint, ?_⟩
  rw [hout, hfs, List.tail_cons, scanned_replicate f rest n t hn]

theorem C7_print_keeps_rows_before_failure_witness :
    ∃ w1, db_print ⟨some 0⟩ demoScanFails = some w1 ∧
      w1.stdout = demoScanFails.stdout ++ (List.take 1 [("a", "1"), ("b", "2")]).map fmtRow :=
  C7_print_keeps_rows_before_failure ⟨some 0⟩ "f" [("a", "1"), ("b", "2")] demoScanFails 1
    ⟨10, "disk I/O error"⟩ [] (by decide) (by decide) (by decide) (by decide)

theorem runWrite_create (p1 p2 : Option String) (t : Option Table) :
    runWrite Sql.create p1 p2 t = (SQLITE_DONE, some (t.getD [])) := by
  cases t <;> rfl

theorem exec_create_live {i : Nat} {path : String} {w : World}
    (hs : connState i w = some (ConnState.live path)) :
    sqlite3_exec (some i) Sql.create w =
      match nextFault w with
      | some f => some (Rc.error f.code, some f.msg,
          { advance (Call.exec Sql.create) w with errmsg := f.msg })
      | none => some (SQLITE_OK, none,
          { advance (Call.exec Sql.create) w with
            files := writeFile path ((readFile path w.files).getD []) w.files }) := by
  unfold sqlite3_exec
  simp only [connState_advance, hs, runWrite_create, advance_files]
  cases nextFault w <;> rfl

theorem sqlite3_open_ok {path : String} {w : World} (hf : nextFault w = none) :
    sqlite3_open path w = (SQLITE_OK, some w.conns.length, afterOpen path w) := by
  simp [sqlite3_open, hf, afterOpen]

theorem sqlite3_open_fails {path : String} {w : World} {f : Fault} (hf : nextFault w = some f) :
    sqlite3_open path w = (Rc.error f.code, some w.conns.length, afterOpenFailed path f w) := by
  simp [sqlite3_open, hf, afterOpenFailed]

theorem connState_afterOpen (path : String) (w : World) :
    connState w.conns.length (afterOpen path w) = some (ConnState.live path) := by
  simp [connState, afterOpen, advance]

theorem exec_afterOpen_ok {path : String} {w : World}
    (hf2 : nextFault (afterOpen path w) = none) :
    sqlite3_exec (some w.conns.length) Sql.create (afterOpen path w)
      = some (SQLITE_OK, none, afterCreate path (afterOpen path w)) := by
  rw [exec_create_live (connState_afterOpen path w), hf2]
  rfl

theorem exec_afterOpen_fails {path : String} {w : World} {f : Fault}
    (hf2 : nextFault (afterOpen path w) = some f) :
    sqlite3_exec (some w.conns.length) Sql.create (afterOpen path w)
      = some (Rc.error f.code, some f.msg,
          { advance (Call.exec Sql.create) (afterOpen path w) with errmsg := f.msg }) := by
  rw [exec_create_live (connState_afterOpen path w), hf2]

theorem db_init_ok (d0 : db) {path : String} {w : World} (hf : nextFault w = none)
    (hf2 : nextFault (afterOpen path w) = none) :
    db_init d0 path w = some (1, ⟨some w.conns.length⟩, afterCreate path (afterOpen path w)) := by
  simp [db_init, sqlite3_open_ok hf, exec_afterOpen_ok hf2]

theorem db_init_exec_fails (d0 : db) {path : String} {w : World} {f : Fault}
    (hf : nextFault w = none) (hf2 : nextFault (afterOpen path w) = some f) :
    db_init d0 path w = some (0, ⟨some w.conns.length⟩,
      fprintf_stderr ("SQL error: " ++ f.msg ++ "\n")
        { advance (Call.exec Sql.create) (afterOpen path w) with errmsg := f.msg }) := by
  simp [db_init, sqlite3_open_ok hf, exec_afterOpen_fails hf2, fmtS]

theorem db_init_open_fails (d0 : db) {path : String} {w : World} {f : Fault}
    (hf : nextFault w = some f) :
    db_init d0 path w = some (0, ⟨some w.conns.length⟩,
      fprintf_stderr ("Cannot open database: " ++ f.msg ++ "\n") (afterOpenFailed path f w)) := by
  simp [db_init, sqlite3_open_fails hf, sqlite3_errmsg, afterOpenFailed]

theorem tableOf_afterCreate (path : String) (w : World) :
    openAt ⟨some w.conns.length⟩ (afterCreate path (afterOpen path w)) = some path ∧
    tableOf ⟨some w.conns.length⟩ (afterCreate path (afterOpen path w))
      = some ((readFile path w.files).getD []) := by
  simp [tableOf, openAt, afterCreate, afterOpen, connState, advance, readFile_writeFile]

/-- C8 (db_init): `db_init` always returns, with 0 or 1.  It returns 1 exactly
when `sqlite3_open` returns `SQLITE_OK` and the `CREATE TABLE IF NOT EXISTS`
statement then executes with `SQLITE_OK`; after a return of 1 the handle is
open on a file that holds table `kv`.  When the open fails it returns 0 and no
statement is executed: the only engine call is the open. -/
theorem C8_init_reports (d0 : db) (path : String) (w : World) :
    ∃ r d w1 rcO p wO, db_init d0 path w = some (r, d, w1) ∧
      sqlite3_open path w = (rcO, p, wO) ∧
      (r = 0 ∨ r = 1) ∧
      (r = 1 ↔ (rcO = SQLITE_OK ∧
        ∃ m wE, sqlite3_exec p Sql.create wO = some (SQLITE_OK, m, wE))) ∧
      (r = 1 → openAt d w1 = some path ∧ tableOf d w1 ≠ none) ∧
      (rcO ≠ SQLITE_OK → r = 0 ∧ w1.log = w.log ++ [Call.open path] ∧ w1.files = w.files) := by
  cases hf : nextFault w with
  | some f =>
    refine ⟨0, ⟨some w.conns.length⟩, _, Rc.error f.code, some w.conns.length,
      afterOpenFailed path f w, db_init_open_fails d0 hf, sqlite3_open_fails hf,
      Or.inl rfl, ?_, ?_, ?_⟩
    · simp
    · simp
    · intro _
      exact ⟨rfl, rfl, rfl⟩
  | none =>
    cases hf2 : nextFault (afterOpen path w) with
    | some f =>
      refine ⟨0, ⟨some w.conns.length⟩, _, SQLITE_OK, some w.conns.length,
        afterOpen path w, db_init_exec_fails d0 hf hf2, sqlite3_open_ok hf,
        Or.inl rfl, ?_, ?_, ?_⟩
      · simp [exec_afterOpen_fails hf2]
      · simp
      · simp
    | none =>
      refine ⟨1, ⟨some w.conns.length⟩, _, SQLITE_OK, some w.conns.length,
        afterOpen path w, db_init_ok d0 hf hf2, sqlite3_open_ok hf,
        Or.inr rfl, ?_, ?_, ?_⟩
      · simp [exec_afterOpen_ok hf2]
      · intro _
        have := tableOf_afterCreate path w
        exact ⟨this.1, by rw [this.2]; simp⟩
      · simp

theorem prepare_neverOpened {d : db} (sql : Sql) {w : World}
    (h : neverOpened d w = true) :
    sqlite3_prepare_v2 d.conn sql w = some (SQLITE_MISUSE, none,
      { advance (Call.prepare sql) w with errmsg := "bad parameter or other API misuse" }) := by
  unfold neverOpened at h
  unfold sqlite3_prepare_v2
  cases hc : d.conn with
  | none => rfl
  | some i =>
    simp only [hc] at h
    simp only [connState_advance]
    cases hs : connState i w with
    | none => simp [hs] at h
    | some st =>
      cases st with
      | released => simp [hs] at h
      | live path => simp [hs] at h
      | failed => rfl

theorem released_undefined {d : db} {i : Nat} {w : World} (hc : d.conn = some i)
    (hs : connState i w = some ConnState.released) (k v : String) :
    db_set d k v w = none ∧ db_get d k w = none ∧ db_print d w = none ∧
      db_close d w = none := by
  simp [db_set, db_get, db_print, db_close, sqlite3_prepare_v2, sqlite3_close, hc, hs]

/-- C9, counterexample: on a handle that was never opened (NULL connection)
`db_get` returns NULL, the result it returns for a missing key on an open
store; and on the handle closed by `db_close` none of `db_set`, `db_get`,
`db_print` has a defined outcome: the released connection is handed to the
engine. -/
theorem C9_counterexample :
    (db_get ⟨none⟩ "k" World.empty).map Prod.fst = some none ∧
    (db_get ⟨some 0⟩ "k" (World.opened "f" [] [])).map Prod.fst = some none ∧
    db_close ⟨some 0⟩ demoSet = some (⟨some 0⟩, demoClosed) ∧
    db_set ⟨some 0⟩ "k" "v" demoClosed = none ∧
    db_get ⟨some 0⟩ "k" demoClosed = none ∧
    db_print ⟨some 0⟩ demoClosed = none := by
  decide

/-- C9, amended: the handle records no open or closed state and no operation
returns a not-open error.  On a handle that was never opened with success (NULL
connection, or the connection left by a failed open) the prepare fails: `db_set`
returns 0, `db_get` returns NULL (its not-found result) and `db_print` prints
nothing, each after one diagnostic line on stderr and with every table
unchanged.  `db_close` leaves the connection pointer in the handle, and on a
handle so closed the three operations hand the released connection to the
engine, for which no outcome is defined. -/
theorem C9_not_open_handles (k v : String) :
    (∀ (d : db) (w : World), neverOpened d w = true →
      (∃ w1, db_set d k v w = some (0, w1) ∧ w1.files = w.files ∧
        w1.stderr = w.stderr ++ ["Failed to prepare statement: " ++ sqlite3_errmsg d.conn w1 ++ "\n"]) ∧
      (∃ w1, db_get d k w = some (none, w1) ∧ w1.files = w.files ∧
        w1.stderr = w.stderr ++ ["Failed to prepare statement: " ++ sqlite3_errmsg d.conn w1 ++ "\n"]) ∧
      (∃ w1, db_print d w = some w1 ∧ w1.files = w.files ∧ w1.stdout = w.stdout ∧
        w1.stderr = w.stderr ++ ["Failed to prepare statement: " ++ sqlite3_errmsg d.conn w1 ++ "\n"])) ∧
    (∀ (d d1 : db) (path : String) (w w1 : World), openAt d w = some path →
      db_close d w = some (d1, w1) →
      d1 = d ∧ db_set d1 k v w1 = none ∧ db_get d1 k w1 = none ∧ db_print d1 w1 = none) := by
  constructor
  · intro d w h
    have hmsg : ∀ sql, (afterMisuse d.conn sql w).stderr = w.stderr ++
        ["Failed to prepare statement: " ++
          sqlite3_errmsg d.conn (afterMisuse d.conn sql w) ++ "\n"] := by
      intro sql
      cases hc : d.conn <;> simp [afterMisuse, fprintf_stderr, sqlite3_errmsg]
    refine ⟨⟨afterMisuse d.conn Sql.insert w, ?_, rfl, hmsg _⟩,
      ⟨afterMisuse d.conn Sql.selectValue w, ?_, rfl, hmsg _⟩,
      ⟨afterMisuse d.conn Sql.selectAll w, ?_, rfl, rfl, hmsg _⟩⟩
    · simp [db_set, prepare_neverOpened Sql.insert h, afterMisuse]
    · simp [db_get, prepare_neverOpened Sql.selectValue h, afterMisuse]
    · simp [db_print, prepare_neverOpened Sql.selectAll h, afterMisuse]
  · intro d d1 path w w1 ho hclose
    obtain ⟨i, hc, hs⟩ := openAt_inv ho
    have hw1 : d1 = d ∧ connState i w1 = some ConnState.released := by
      simp only [db_close, sqlite3_close, hc, hs, Option.some.injEq, Prod.mk.injEq] at hclose
      obtain ⟨hd, hw⟩ := hclose
      subst hd; subst hw
      refine ⟨rfl, ?_⟩
      have hlt : i < w.conns.length := by
        unfold connState at hs
        by_contra hge
        rw [List.getElem?_eq_none (by omega)] at hs
        simp at hs
      simp [connState, logCall, List.getElem?_set_self, hlt]
    obtain ⟨hd, hrel⟩ := hw1
    subst hd
    obtain ⟨a, b, c, _⟩ := released_undefined hc hrel k v
    exact ⟨rfl, a, b, c⟩

theorem C9_not_open_handles_witness :
    ((∃ w1, db_set ⟨none⟩ "k" "v" World.empty = some (0, w1) ∧ w1.files = World.empty.files ∧
        w1.stderr = World.empty.stderr ++
          ["Failed to prepare statement: " ++ sqlite3_errmsg none w1 ++ "\n"]) ∧
      (∃ w1, db_get ⟨none⟩ "k" World.empty = some (none, w1) ∧ w1.files = World.empty.files ∧
        w1.stderr = World.empty.stderr ++
          ["Failed to prepare statement: " ++ sqlite3_errmsg none w1 ++ "\n"]) ∧
      (∃ w1, db_print ⟨none⟩ World.empty = some w1 ∧ w1.files = World.empty.files ∧
        w1.stdout = World.empty.stdout ∧
        w1.stderr = World.empty.stderr ++
          ["Failed to prepare statement: " ++ sqlite3_errmsg none w1 ++ "\n"])) ∧
    ((⟨some 0⟩ : db) = ⟨some 0⟩ ∧ db_set ⟨some 0⟩ "k" "v" demoClosed = none ∧
      db_get ⟨some 0⟩ "k" demoClosed = none ∧ db_print ⟨some 0⟩ demoClosed = none) :=
  ⟨(C9_not_open_handles "k" "v").1 ⟨none⟩ World.empty (by decide),
   (C9_not_open_handles "k" "v").2 ⟨some 0⟩ ⟨some 0⟩ "f" demoSet demoClosed
      (by decide) (by decide)⟩

/-- C10, counterexample: after `db_init` and `db_set`, the first `db_close`
releases connection 0 and leaves the handle pointing at it; the second
`db_close` on that handle passes the released connection to the engine again and
has no defined outcome, where a no-op would return the world unchanged. -/
theorem C10_counterexample :
    db_close ⟨some 0⟩ demoSet = some (⟨some 0⟩, demoClosed) ∧
    connState 0 demoClosed = some ConnState.released ∧
    db_close ⟨some 0⟩ demoClosed = none ∧
    db_close ⟨some 0⟩ demoClosed ≠ some (⟨some 0⟩, demoClosed) := by
  decide

/-- C10, amended: `db_close` on an open handle releases the connection once and
leaves the connection pointer in the handle, which keeps no closed state.  The
backing files are untouched, so that a following `db_init` on the same path,
when the engine meets no failure, returns 1 and opens a store whose table is
the one the closed handle had. -/
theorem C10_close_once (d d0 : db) (path : String) (t : Table) (w : World)
    (h : openAt d w = some path) (ht : tableOf d w = some t)
    (hq : calm 2 w.faults = true) :
    ∃ w1, db_close d w = some (d, w1) ∧ w1.files = w.files ∧
      (∃ i, d.conn = some i ∧ connState i w1 = some ConnState.released) ∧
      ∃ d2 w2, db_init d0 path w1 = some (1, d2, w2) ∧ tableOf d2 w2 = some t := by
  obtain ⟨i, hc, hs⟩ := openAt_inv h
  have hlt : i < w.conns.length := by
    unfold connState at hs
    by_contra hge
    rw [List.getElem?_eq_none (by omega)] at hs
    simp at hs
  have htab : readFile path w.files = some t := by
    rw [tableOf_intro hc hs] at ht; exact ht
  refine ⟨{ logCall Call.close w with conns := w.conns.set i ConnState.released }, ?_, rfl,
    ⟨i, hc, ?_⟩, ?_⟩
  · simp [db_close, sqlite3_close, hc, hs]
  · simp [connState, logCall, List.getElem?_set_self, hlt]
  · obtain ⟨hf, hf2⟩ := (calm_two_iff w (Call.open path)).1 hq
    have hf1 : nextFault { logCall Call.close w with
        conns := w.conns.set i ConnState.released } = none := hf
    have hf3 : nextFault (afterOpen path { logCall Call.close w with
        conns := w.conns.set i ConnState.released }) = none := hf2
    refine ⟨_, _, db_init_ok d0 hf1 hf3, ?_⟩
    rw [(tableOf_afterCreate path _).2]
    show some ((readFile path w.files).getD []) = some t
    rw [htab]
    rfl

theorem C10_close_once_witness :
    ∃ w1, db_close ⟨some 0⟩ demoSet = some (⟨some 0⟩, w1) ∧ w1.files = demoSet.files ∧
      (∃ i, (⟨some 0⟩ : db).conn = some i ∧ connState i w1 = some ConnState.released) ∧
      ∃ d2 w2, db_init ⟨some 0⟩ "f" w1 = some (1, d2, w2) ∧ tableOf d2 w2 = some [("k", "v")] :=
  C10_close_once ⟨some 0⟩ ⟨some 0⟩ "f" [("k", "v")] demoSet (by decide) (by decide) (by decide)

end KVStore
